import Mathlib

/-!
Shallow embedding of the transport/session manager of the
redshift-mcp-server repository.

Embedded source files:
- src/unnamed/part_004 (`createAuthMiddleware`): the token-based access gate.
- src/unnamed/part_007 (`StreamableHttpTransportManager`): request routing
  (POST/GET/DELETE handlers), the session registry (a map from session id to
  transport, modelled by its list of keys), the health/ready endpoints and the
  shutdown handler.

External SDK behaviour (the `StreamableHTTPServerTransport` of the MCP SDK,
not part of this repository) is modelled from the spec where a claim needs it:
on a stateful initialization the SDK generates a fresh session id, reports it
through `onsessioninitialized` (whose repository-side callback registers it)
and returns it to the caller; a stateless transport is built with
`sessionIdGenerator: undefined` and never issues a session id; handling a
DELETE on a registered transport terminates it, firing `onclose` (whose
repository-side callback removes the id from the registry).
-/

namespace RedshiftMcp

/-! ## Access gate: src/unnamed/part_004, createAuthMiddleware -/

/-- Whitespace characters matched by the whitespace class of a JavaScript
regular expression (the class used in the middleware pattern matching a
Bearer scheme followed by whitespace). -/
def isJsWhitespace (c : Char) : Bool :=
  c == ' ' || c == '\t' || c == '\n' || c == '\x0b' || c == '\x0c' || c == '\r' ||
  c.toNat == 0x00a0 || c.toNat == 0x1680 ||
  (0x2000 ≤ c.toNat && c.toNat ≤ 0x200a) ||
  c.toNat == 0x2028 || c.toNat == 0x2029 || c.toNat == 0x202f ||
  c.toNat == 0x205f || c.toNat == 0x3000 || c.toNat == 0xfeff

/-- Drop the leading whitespace characters of a character list (the greedy
one-or-more whitespace part of the regex consumes them all). -/
def dropLeadingWs : List Char → List Char
  | [] => []
  | c :: rest => if isJsWhitespace c then dropLeadingWs rest else c :: rest

/-- Match the anchored, case-insensitive pattern: the six letters of the word
Bearer in any case, then at least one whitespace character. On a match,
return the remainder after the matched prefix (the match consumes all
following whitespace, by greediness); otherwise none. -/
def bearerSchemeSplit : List Char → Option (List Char)
  | b :: e :: a :: r :: e2 :: r2 :: c :: rest =>
    if b.toLower == 'b' && e.toLower == 'e' && a.toLower == 'a' &&
       r.toLower == 'r' && e2.toLower == 'e' && r2.toLower == 'r' &&
       isJsWhitespace c then
      some (dropLeadingWs rest)
    else
      none
  | _ => none

/-- The middleware computation: replace the anchored case-insensitive Bearer
scheme plus following whitespace with the empty string (a no-op when the
pattern does not match). part_004 line 43. -/
def stripBearer (s : String) : String :=
  match bearerSchemeSplit s.data with
  | some rest => String.mk rest
  | none => s

/-- True when the value starts with the case-insensitive Bearer scheme
followed by whitespace, i.e. when the strip is not a no-op. -/
def hasBearerScheme (s : String) : Bool :=
  (bearerSchemeSplit s.data).isSome

/-- Body of an HTTP response written by the manager: a full JSON-RPC error
envelope with null id, a plain text body, or a body produced by delegating
to the bound transport. -/
inductive HttpBody where
  | envelope (code : Int) (message : String)
  | text (s : String)
  | delegated
deriving DecidableEq, Repr

/-- An HTTP response: status code and body. -/
structure HttpResponse where
  status : Nat
  body : HttpBody
deriving DecidableEq, Repr

/-- Whether the response carries a complete JSON-RPC error envelope. -/
def isJsonRpcErrorEnvelope (r : HttpResponse) : Bool :=
  match r.body with
  | .envelope _ _ => true
  | _ => false

/-- Decision of the access gate: pass the request on, or deny with a
response. -/
inductive GateResult where
  | next
  | deny (resp : HttpResponse)
deriving DecidableEq, Repr

/-- Prefix test on strings (the JavaScript startsWith used by the
middleware), computed on the character lists. -/
def pathStartsWith (s pre : String) : Bool :=
  pre.data.isPrefixOf s.data

/-- The middleware of part_004 lines 14 to 57: allow health/ready probes,
OPTIONS preflight and OAuth discovery paths unconditionally; otherwise
require an Authorization header whose value, after the Bearer strip, equals
the configured token. -/
def authMiddleware (token : String) (path method : String)
    (authHeader : Option String) : GateResult :=
  if path == "/health" || path == "/ready" then
    .next
  else if method == "OPTIONS" then
    .next
  else if pathStartsWith path "/.well-known/" || path == "/register" then
    .next
  else
    match authHeader with
    | none => .deny ⟨401, .envelope (-32000) "Missing Authorization header"⟩
    | some header =>
      if stripBearer header != token then
        .deny ⟨401, .envelope (-32000) "Invalid authorization token"⟩
      else
        .next

/-- The middleware stack installs the auth middleware only when auth is
enabled and a token is configured (part_007 lines 55 to 58); otherwise
every request passes the gate. -/
def accessGate (enableAuth : Bool) (apiToken : Option String)
    (path method : String) (authHeader : Option String) : GateResult :=
  match enableAuth, apiToken with
  | true, some tok => authMiddleware tok path method authHeader
  | _, _ => .next

/-! ## Session registry and request routing: src/unnamed/part_007 -/

/-- The session registry, modelled by the list of keys of the transports map
(a JavaScript Map has unique keys; ids are generated fresh). -/
abbrev Registry := List String

/-- Removal of a key from the registry (Map.delete). -/
def registryDelete (registry : Registry) (sid : String) : Registry :=
  registry.filter (fun key => key != sid)

/-- Outcome of the POST dispatch of part_007 lines 156 to 184: an ephemeral
stateless transport handled the request, an existing session transport was
reused, a new stateful session was created under the given id, or the
request was rejected as a bad request. -/
inductive PostOutcome where
  | statelessHandled
  | reused (sid : String)
  | created (sid : String)
  | badRequest
deriving DecidableEq, Repr

/-- The POST handler of part_007 lines 140 to 201, branch for branch:
stateless mode builds an ephemeral transport; else a present and registered
session id is reused; else an initialization body with no session id creates
a stateful transport, whose SDK-generated fresh id (here `freshId`, the
randomUUID output) is registered by the `onsessioninitialized` callback of
part_007 lines 283 to 286; everything else is a 400 bad request. -/
def handlePost (statelessMode : Bool) (registry : Registry)
    (sessionId : Option String) (isInit : Bool) (freshId : String) :
    PostOutcome × Registry :=
  if statelessMode then
    (.statelessHandled, registry)
  else
    match sessionId with
    | some sid =>
      if registry.contains sid then (.reused sid, registry)
      else (.badRequest, registry)
    | none =>
      if isInit then (.created freshId, freshId :: registry)
      else (.badRequest, registry)

/-- Session id issued to the caller by the POST dispatch. Modelled from the
spec: the SDK returns the generated id to the caller on session creation,
and a stateless transport (sessionIdGenerator disabled, part_007 line 309)
never issues one; a reused session gets no new id. -/
def issuedSessionId : PostOutcome → Option String
  | .created sid => some sid
  | _ => none

/-- The HTTP response the POST handler writes: the 400 envelope of part_007
lines 175 to 183 on a bad request, the 500 envelope of lines 191 to 198 when
handling throws, else the delegated response. -/
def postResponse (outcome : PostOutcome) (engineFails : Bool) : HttpResponse :=
  match outcome with
  | .badRequest => ⟨400, .envelope (-32000) "Bad Request: Missing or invalid session ID"⟩
  | _ =>
    if engineFails then ⟨500, .envelope (-32603) "Internal server error"⟩
    else ⟨200, .delegated⟩

/-- The GET handler response of part_007 lines 206 to 241: plain text 400
when the session id is absent or unknown, plain text 500 when handling
throws, else delegated to the transport. -/
def getResponse (registry : Registry) (sessionId : Option String)
    (engineFails : Bool) : HttpResponse :=
  match sessionId with
  | none => ⟨400, .text "Invalid or missing session ID"⟩
  | some sid =>
    if registry.contains sid then
      if engineFails then ⟨500, .text "Internal server error"⟩
      else ⟨200, .delegated⟩
    else ⟨400, .text "Invalid or missing session ID"⟩

/-- The GET handler never mutates the registry: its only registry access is
the lookup. -/
def handleGet (registry : Registry) (sessionId : Option String)
    (engineFails : Bool) : HttpResponse × Registry :=
  (getResponse registry sessionId engineFails, registry)

/-- Effect on the registry of the underlying SSE connection closing: the
close handler of part_007 lines 230 to 232 only logs, so the registry is
untouched. -/
def onSseConnectionClose (registry : Registry) : Registry :=
  registry

/-- The DELETE handler of part_007 lines 246 to 269: plain text 400 when the
session id is absent or unknown; otherwise the request is delegated to the
registered transport, which (modelled from the spec: the SDK terminates the
session on DELETE) closes, firing the `onclose` callback of part_007 lines
290 to 295 that removes the id from the registry; plain text 500 when the
delegated handling throws (registry left as the handler leaves it: the catch
block does not touch it). -/
def handleDelete (registry : Registry) (sessionId : Option String)
    (engineFails : Bool) : HttpResponse × Registry :=
  match sessionId with
  | none => (⟨400, .text "Invalid or missing session ID"⟩, registry)
  | some sid =>
    if registry.contains sid then
      if engineFails then
        (⟨500, .text "Error processing session termination"⟩, registry)
      else
        (⟨200, .delegated⟩, registryDelete registry sid)
    else
      (⟨400, .text "Invalid or missing session ID"⟩, registry)

/-- One POST request as the router sees it: optional session id header,
whether the body is an initialization request, and the fresh id the SDK
would generate for it. -/
structure PostRequest where
  sessionId : Option String
  isInit : Bool
  freshId : String

/-- Registry after a sequence of POST requests. -/
def processPosts (statelessMode : Bool) (registry : Registry) :
    List PostRequest → Registry
  | [] => registry
  | q :: rest =>
    processPosts statelessMode
      (handlePost statelessMode registry q.sessionId q.isInit q.freshId).2 rest

/-! ## Health and readiness endpoints: part_007 lines 120 to 134 -/

/-- Body of the health endpoint response. -/
structure HealthBody where
  status : String
  mode : String
  activeSessions : Nat
  timestamp : String
deriving DecidableEq, Repr

/-- The health handler of part_007 lines 121 to 128. -/
def healthResponse (statelessMode : Bool) (registry : Registry)
    (timestamp : String) : HealthBody :=
  { status := "ok"
  , mode := if statelessMode then "stateless" else "stateful"
  , activeSessions := registry.length
  , timestamp := timestamp }

/-- Body of the readiness endpoint response. -/
structure ReadyBody where
  status : String
deriving DecidableEq, Repr

/-- The readiness handler of part_007 lines 131 to 134. -/
def readyResponse : ReadyBody :=
  { status := "ready" }

/-! ## Shutdown: part_007 lines 340 to 363 -/

/-- Observable events of the shutdown sequence. -/
inductive ShutdownEvent where
  | closeAttempt (sid : String) (ok : Bool)
  | listenerClosed
  | exited
deriving DecidableEq, Repr

/-- The close loop of part_007 lines 344 to 351: each registered transport
gets a close attempt; a throwing close is caught and logged, and the loop
continues with the next transport. A session is a pair of its id and
whether its close call succeeds. -/
def closeAllTransports : List (String × Bool) → List ShutdownEvent
  | [] => []
  | (sid, ok) :: rest => .closeAttempt sid ok :: closeAllTransports rest

/-- The shutdown handler: close every transport (best-effort), clear the
registry (part_007 line 352), then close the HTTP listener and exit
(lines 355 to 362). Returns the event trace and the final registry. -/
def shutdown (sessions : List (String × Bool)) :
    List ShutdownEvent × Registry :=
  (closeAllTransports sessions ++ [.listenerClosed, .exited], [])

end RedshiftMcp
namespace RedshiftMcp

lemma contains_filter_ne (l : List String) (s : String) :
    (l.filter (fun key => key != s)).contains s = false := by
  induction l with
  | nil => rfl
  | cons a tail ih =>
    rw [List.filter_cons]
    by_cases h : a = s
    · simp [h, ih]
    · simp only [h, bne_iff_ne, ne_eq, not_false_iff, if_true]
      simp only [List.contains_cons, ih, Bool.or_false]
      simp [Ne.symm h]

lemma stripBearer_noop (s : String) (h : hasBearerScheme s = false) :
    stripBearer s = s := by
  unfold stripBearer
  unfold hasBearerScheme at h
  cases hs : bearerSchemeSplit s.data with
  | none => rfl
  | some rest => rw [hs] at h; simp at h

lemma authMiddleware_exempt (token path method : String) (authHeader : Option String)
    (h : method = "OPTIONS" ∨ path = "/health" ∨ path = "/ready" ∨
         pathStartsWith path "/.well-known/" = true ∨ path = "/register") :
    authMiddleware token path method authHeader = .next := by
  unfold authMiddleware
  rcases h with h | h | h | h | h <;> simp [h]

end RedshiftMcp
namespace RedshiftMcp

/-- C3: with auth enabled and a configured token, on a protected path a
request with no Authorization header is denied 401 with code -32000 citing
missing credentials; a header whose value after the case-insensitive Bearer
strip differs from the token is denied 401 with code -32000 citing invalid
credentials; a header whose stripped value equals the token passes the gate. -/
theorem auth_token_check (token path method : String) (authHeader : Option String)
    (hp1 : path ≠ "/health") (hp2 : path ≠ "/ready") (hm : method ≠ "OPTIONS")
    (hp3 : pathStartsWith path "/.well-known/" = false) (hp4 : path ≠ "/register") :
    (authHeader = none →
      accessGate true (some token) path method authHeader =
        .deny ⟨401, .envelope (-32000) "Missing Authorization header"⟩) ∧
    (∀ header, authHeader = some header → stripBearer header ≠ token →
      accessGate true (some token) path method authHeader =
        .deny ⟨401, .envelope (-32000) "Invalid authorization token"⟩) ∧
    (∀ header, authHeader = some header → stripBearer header = token →
      accessGate true (some token) path method authHeader = .next) := by
  refine ⟨?_, ?_, ?_⟩
  · intro h
    subst h
    simp [accessGate, authMiddleware, hp1, hp2, hm, hp3, hp4]
  · intro header h hne
    subst h
    simp [accessGate, authMiddleware, hp1, hp2, hm, hp3, hp4, hne]
  · intro header h heq
    subst h
    simp [accessGate, authMiddleware, hp1, hp2, hm, hp3, hp4, heq]

/-- Witness for auth_token_check at token tok, path /mcp, method POST. -/
theorem auth_token_check_witness :
    accessGate true (some "tok") "/mcp" "POST" none =
      .deny ⟨401, .envelope (-32000) "Missing Authorization header"⟩ ∧
    accessGate true (some "tok") "/mcp" "POST" (some "Bearer wrong") =
      .deny ⟨401, .envelope (-32000) "Invalid authorization token"⟩ ∧
    accessGate true (some "tok") "/mcp" "POST" (some "Bearer tok") = .next := by
  have h := auth_token_check "tok" "/mcp" "POST"
  refine ⟨(h none (by decide) (by decide) (by decide) (by decide) (by decide)).1 rfl,
    ((h (some "Bearer wrong") (by decide) (by decide) (by decide) (by decide)
        (by decide)).2.1 "Bearer wrong" rfl (by decide)),
    ((h (some "Bearer tok") (by decide) (by decide) (by decide) (by decide)
        (by decide)).2.2 "Bearer tok" rfl (by decide))⟩

/-- C4: the gate always passes OPTIONS preflight requests, the health and
readiness probe paths, paths under /.well-known/ and the /register path,
whatever the auth configuration. -/
theorem gate_exempt_classes (enableAuth : Bool) (apiToken : Option String)
    (path method : String) (authHeader : Option String)
    (hexempt : method = "OPTIONS" ∨ path = "/health" ∨ path = "/ready" ∨
               pathStartsWith path "/.well-known/" = true ∨ path = "/register") :
    accessGate enableAuth apiToken path method authHeader = .next := by
  cases enableAuth with
  | false => cases apiToken <;> rfl
  | true =>
    cases apiToken with
    | none => rfl
    | some tok => exact authMiddleware_exempt tok path method authHeader hexempt

/-- Witness for gate_exempt_classes: a health probe with auth enabled, an
OPTIONS preflight, and a discovery path, each with no credentials. -/
theorem gate_exempt_classes_witness :
    accessGate true (some "tok") "/health" "GET" none = .next ∧
    accessGate true (some "tok") "/mcp" "OPTIONS" none = .next ∧
    accessGate true (some "tok") "/.well-known/oauth-authorization-server" "GET" none = .next ∧
    accessGate true (some "tok") "/register" "POST" none = .next := by
  refine ⟨gate_exempt_classes true (some "tok") "/health" "GET" none ?_,
    gate_exempt_classes true (some "tok") "/mcp" "OPTIONS" none ?_,
    gate_exempt_classes true (some "tok") "/.well-known/oauth-authorization-server" "GET" none ?_,
    gate_exempt_classes true (some "tok") "/register" "POST" none ?_⟩
  · exact Or.inr (Or.inl (by decide))
  · exact Or.inl (by decide)
  · exact Or.inr (Or.inr (Or.inr (Or.inl (by decide))))
  · exact Or.inr (Or.inr (Or.inr (Or.inr (by decide))))

/-- C10: with auth enabled, a request on a protected path whose Authorization
header is exactly the configured token, with no Bearer scheme at the front
of that token, is allowed: the strip is a no-op and the comparison succeeds. -/
theorem bare_token_allowed (token path method : String)
    (hp1 : path ≠ "/health") (hp2 : path ≠ "/ready") (hm : method ≠ "OPTIONS")
    (hp3 : pathStartsWith path "/.well-known/" = false) (hp4 : path ≠ "/register")
    (hnb : hasBearerScheme token = false) :
    accessGate true (some token) path method (some token) = .next := by
  have hstrip : stripBearer token = token := stripBearer_noop token hnb
  simp [accessGate, authMiddleware, hp1, hp2, hm, hp3, hp4, hstrip]

/-- Witness for bare_token_allowed at token secret, path /mcp, method POST. -/
theorem bare_token_allowed_witness :
    accessGate true (some "secret") "/mcp" "POST" (some "secret") = .next :=
  bare_token_allowed "secret" "/mcp" "POST" (by decide) (by decide) (by decide)
    (by decide) (by decide) (by decide)

end RedshiftMcp
namespace RedshiftMcp

/-- C1: the stateful POST dispatch, case for case: a present and registered
session id reuses that transport and leaves the registry unchanged; no
session id with an initialization body creates a session under the fresh id,
registers it and issues it to the caller; no session id with a
non-initialization body, or an unknown session id (with or without an
initialization body), is rejected as a bad request with the registry
unchanged. -/
theorem stateful_post_dispatch (registry : Registry) (sessionId : Option String)
    (isInit : Bool) (freshId : String) (hfresh : registry.contains freshId = false) :
    (∀ sid, sessionId = some sid → registry.contains sid = true →
      handlePost false registry sessionId isInit freshId = (.reused sid, registry)) ∧
    (sessionId = none → isInit = true →
      handlePost false registry sessionId isInit freshId =
        (.created freshId, freshId :: registry) ∧
      registry.contains freshId = false ∧
      (freshId :: registry).contains freshId = true ∧
      issuedSessionId (handlePost false registry sessionId isInit freshId).1 =
        some freshId) ∧
    (sessionId = none → isInit = false →
      handlePost false registry sessionId isInit freshId = (.badRequest, registry)) ∧
    (∀ sid, sessionId = some sid → registry.contains sid = false →
      handlePost false registry sessionId isInit freshId = (.badRequest, registry)) := by
  refine ⟨?_, ?_, ?_, ?_⟩
  · intro sid hs hmem
    subst hs
    have : sid ∈ registry := by simpa using hmem
    simp [handlePost, this]
  · intro hs hinit
    subst hs
    subst hinit
    refine ⟨by simp [handlePost], hfresh, by simp, by simp [handlePost, issuedSessionId]⟩
  · intro hs hinit
    subst hs
    subst hinit
    simp [handlePost]
  · intro sid hs hmem
    subst hs
    have : sid ∉ registry := by simpa using hmem
    simp [handlePost, this]

/-- Witness for stateful_post_dispatch on the registry holding only session
abc: reuse of abc, creation under fresh id f1, rejection of a sessionless
non-initialization body, and rejection of unknown id zzz with an
initialization body. -/
theorem stateful_post_dispatch_witness :
    handlePost false ["abc"] (some "abc") false "f1" = (.reused "abc", ["abc"]) ∧
    handlePost false ["abc"] none true "f1" = (.created "f1", ["f1", "abc"]) ∧
    handlePost false ["abc"] none false "f1" = (.badRequest, ["abc"]) ∧
    handlePost false ["abc"] (some "zzz") true "f1" = (.badRequest, ["abc"]) := by
  refine ⟨(stateful_post_dispatch ["abc"] (some "abc") false "f1" (by decide)).1
      "abc" rfl (by decide),
    ((stateful_post_dispatch ["abc"] none true "f1" (by decide)).2.1 rfl rfl).1,
    (stateful_post_dispatch ["abc"] none false "f1" (by decide)).2.2.1 rfl rfl,
    (stateful_post_dispatch ["abc"] (some "zzz") true "f1" (by decide)).2.2.2
      "zzz" rfl (by decide)⟩

/-- C2: in stateless mode every POST is handled by an ephemeral transport:
the dispatch leaves the registry exactly as it was, issues no session id,
and a registry that starts empty is still empty after any sequence of
stateless POST requests. -/
theorem stateless_post_no_sessions :
    (∀ (registry : Registry) (sessionId : Option String) (isInit : Bool)
        (freshId : String),
      handlePost true registry sessionId isInit freshId =
        (.statelessHandled, registry) ∧
      issuedSessionId (handlePost true registry sessionId isInit freshId).1 =
        none) ∧
    (∀ reqs : List PostRequest, processPosts true [] reqs = []) := by
  constructor
  · intro registry sessionId isInit freshId
    exact ⟨by simp [handlePost], by simp [handlePost, issuedSessionId]⟩
  · intro reqs
    induction reqs with
    | nil => rfl
    | cons q rest ih =>
      show processPosts true (handlePost true [] q.sessionId q.isInit q.freshId).2 rest = []
      simpa [handlePost] using ih

end RedshiftMcp
namespace RedshiftMcp

/-- C5 counterexample: a bad-session rejection on GET (session id header
absent, a case well past body parsing) is written as a plain text body with
status 400, not as a JSON-RPC error envelope. -/
theorem get_rejection_not_enveloped :
    getResponse [] none false = ⟨400, .text "Invalid or missing session ID"⟩ ∧
    isJsonRpcErrorEnvelope (getResponse [] none false) = false :=
  ⟨rfl, rfl⟩

/-- C5 as amended: auth denials and POST rejections (bad request and
internal error) carry complete JSON-RPC error envelopes, while GET and
DELETE responses never do: their rejections and internal errors are plain
text bodies. -/
theorem rejection_envelope_policy (token path method : String)
    (authHeader : Option String) (registry : Registry)
    (sessionId : Option String) (engineFails : Bool) :
    (∀ resp, authMiddleware token path method authHeader = .deny resp →
      isJsonRpcErrorEnvelope resp = true ∧ resp.status = 401) ∧
    (∀ fails, postResponse .badRequest fails =
      ⟨400, .envelope (-32000) "Bad Request: Missing or invalid session ID"⟩) ∧
    (∀ outcome, outcome ≠ .badRequest → postResponse outcome true =
      ⟨500, .envelope (-32603) "Internal server error"⟩) ∧
    (isJsonRpcErrorEnvelope (getResponse registry sessionId engineFails) = false) ∧
    (isJsonRpcErrorEnvelope (handleDelete registry sessionId engineFails).1 = false) := by
  refine ⟨?_, fun _ => rfl, ?_, ?_, ?_⟩
  · intro resp h
    unfold authMiddleware at h
    split at h
    · exact absurd h (by simp)
    · split at h
      · exact absurd h (by simp)
      · split at h
        · exact absurd h (by simp)
        · split at h
          · cases h
            exact ⟨rfl, rfl⟩
          · split at h
            · cases h
              exact ⟨rfl, rfl⟩
            · exact absurd h (by simp)
  · intro outcome houtcome
    cases outcome with
    | badRequest => exact absurd rfl houtcome
    | statelessHandled => rfl
    | reused sid => rfl
    | created sid => rfl
  · unfold getResponse
    cases sessionId with
    | none => rfl
    | some sid =>
      by_cases h : registry.contains sid = true
      · simp only [h, if_true]
        cases engineFails <;> rfl
      · have hm : sid ∉ registry := by simpa using h
        simp [hm, isJsonRpcErrorEnvelope]
  · unfold handleDelete
    cases sessionId with
    | none => rfl
    | some sid =>
      by_cases h : registry.contains sid = true
      · simp only [h, if_true]
        cases engineFails <;> rfl
      · have hm : sid ∉ registry := by simpa using h
        simp [hm, isJsonRpcErrorEnvelope]

/-- Witness for rejection_envelope_policy: the missing-credentials denial is
an envelope, a POST bad request is the 400 envelope, and the GET rejection
on an empty registry carries no envelope. -/
theorem rejection_envelope_policy_witness :
    isJsonRpcErrorEnvelope ⟨401, .envelope (-32000) "Missing Authorization header"⟩ = true ∧
    postResponse .badRequest false =
      ⟨400, .envelope (-32000) "Bad Request: Missing or invalid session ID"⟩ ∧
    postResponse .statelessHandled true = ⟨500, .envelope (-32603) "Internal server error"⟩ ∧
    isJsonRpcErrorEnvelope (getResponse [] (some "abc") false) = false := by
  have h := rejection_envelope_policy "tok" "/mcp" "POST" none [] (some "abc") false
  exact ⟨(h.1 ⟨401, .envelope (-32000) "Missing Authorization header"⟩ (by decide)).1,
    h.2.1 false, h.2.2.1 .statelessHandled (by decide), h.2.2.2.1⟩

end RedshiftMcp
namespace RedshiftMcp

/-- C6: a DELETE with no session id header or an unregistered id is rejected
with status 400 and the registry untouched; a DELETE with a registered id
removes exactly that entry, after which a POST, GET or DELETE carrying the
id is rejected as an unknown session. -/
theorem delete_session_lifecycle (registry : Registry) (sid : String) :
    (∀ engineFails, handleDelete registry none engineFails =
      (⟨400, .text "Invalid or missing session ID"⟩, registry)) ∧
    (registry.contains sid = false → ∀ engineFails,
      handleDelete registry (some sid) engineFails =
        (⟨400, .text "Invalid or missing session ID"⟩, registry)) ∧
    (registry.contains sid = true →
      handleDelete registry (some sid) false =
        (⟨200, .delegated⟩, registryDelete registry sid) ∧
      (registryDelete registry sid).contains sid = false ∧
      (∀ isInit freshId,
        handlePost false (registryDelete registry sid) (some sid) isInit freshId =
          (.badRequest, registryDelete registry sid)) ∧
      (∀ engineFails,
        (getResponse (registryDelete registry sid) (some sid) engineFails).status = 400) ∧
      (∀ engineFails,
        (handleDelete (registryDelete registry sid) (some sid) engineFails).1.status =
          400)) := by
  have hgone : (registryDelete registry sid).contains sid = false :=
    contains_filter_ne registry sid
  have hgonem : sid ∉ registryDelete registry sid := by simpa using hgone
  refine ⟨fun _ => rfl, ?_, ?_⟩
  · intro hmem engineFails
    have : sid ∉ registry := by simpa using hmem
    simp [handleDelete, this]
  · intro hmem
    have hm : sid ∈ registry := by simpa using hmem
    refine ⟨by simp [handleDelete, hm], hgone, ?_, ?_, ?_⟩
    · intro isInit freshId
      simp [handlePost, hgonem]
    · intro engineFails
      simp [getResponse, hgonem]
    · intro engineFails
      simp [handleDelete, hgonem]

/-- Witness for delete_session_lifecycle on the one-session registry abc:
deleting abc removes it and a follow-up POST carrying abc is rejected. -/
theorem delete_session_lifecycle_witness :
    handleDelete ["abc"] (some "abc") false =
      (⟨200, .delegated⟩, registryDelete ["abc"] "abc") ∧
    (registryDelete ["abc"] "abc").contains "abc" = false ∧
    handlePost false (registryDelete ["abc"] "abc") (some "abc") true "f1" =
      (.badRequest, registryDelete ["abc"] "abc") ∧
    handleDelete ["abc"] none false =
      (⟨400, .text "Invalid or missing session ID"⟩, ["abc"]) := by
  have h := delete_session_lifecycle ["abc"] "abc"
  have hk := h.2.2 (by decide)
  exact ⟨hk.1, hk.2.1, hk.2.2.1 true "f1", h.1 false⟩

/-- C7: a GET with no session id header or an unregistered id is rejected
with status 400 and no registry change; a GET never mutates the registry,
and the close of the underlying SSE connection leaves the registry exactly
as it was, so a registered session stays registered. -/
theorem get_stream_session_persistence (registry : Registry) (sid : String)
    (engineFails : Bool) :
    ((handleGet registry none engineFails).1 =
      ⟨400, .text "Invalid or missing session ID"⟩) ∧
    (registry.contains sid = false →
      (handleGet registry (some sid) engineFails).1 =
        ⟨400, .text "Invalid or missing session ID"⟩) ∧
    (∀ sessionId, (handleGet registry sessionId engineFails).2 = registry) ∧
    (onSseConnectionClose registry = registry) ∧
    (registry.contains sid = true →
      (onSseConnectionClose registry).contains sid = true) := by
  refine ⟨rfl, ?_, fun _ => rfl, rfl, fun hmem => hmem⟩
  intro hmem
  have : sid ∉ registry := by simpa using hmem
  simp [handleGet, getResponse, this]

/-- Witness for get_stream_session_persistence: on the registry holding only
abc, a GET for unknown id zzz is rejected, and abc stays registered when the
SSE connection closes. -/
theorem get_stream_session_persistence_witness :
    (handleGet ["abc"] (some "zzz") false).1 =
      ⟨400, .text "Invalid or missing session ID"⟩ ∧
    (onSseConnectionClose ["abc"]).contains "abc" = true := by
  have h := get_stream_session_persistence ["abc"] "abc" false
  exact ⟨(get_stream_session_persistence ["abc"] "zzz" false).2.1 (by decide),
    h.2.2.2.2 (by decide)⟩

end RedshiftMcp
namespace RedshiftMcp

/-- Every session in the close loop input gets a close attempt event,
whatever the success of the other attempts. -/
lemma closeAttempt_mem (sessions : List (String × Bool)) (p : String × Bool)
    (hp : p ∈ sessions) :
    ShutdownEvent.closeAttempt p.1 p.2 ∈ closeAllTransports sessions := by
  induction sessions with
  | nil => cases hp
  | cons q rest ih =>
    cases hp with
    | head => exact List.mem_cons_self _ _
    | tail _ hmem => exact List.mem_cons_of_mem _ (ih hmem)

/-- The close loop emits only close attempts. -/
lemma closeAllTransports_only_closes (sessions : List (String × Bool)) :
    ∀ e ∈ closeAllTransports sessions,
      e ≠ ShutdownEvent.listenerClosed ∧ e ≠ ShutdownEvent.exited := by
  induction sessions with
  | nil => intro e he; cases he
  | cons q rest ih =>
    intro e he
    cases he with
    | head => exact ⟨by simp, by simp⟩
    | tail _ hmem => exact ih e hmem

/-- C8: the shutdown handler attempts to close every registered transport,
a failing close not stopping the attempts on the others; the registry is
empty afterwards; and the event trace is the close attempts followed by the
listener close followed by the process exit, in that order. -/
theorem shutdown_drains_sessions (sessions : List (String × Bool)) :
    ((shutdown sessions).2 = []) ∧
    (∀ p ∈ sessions,
      ShutdownEvent.closeAttempt p.1 p.2 ∈ (shutdown sessions).1) ∧
    ((shutdown sessions).1 =
      closeAllTransports sessions ++
        [ShutdownEvent.listenerClosed, ShutdownEvent.exited]) ∧
    (∀ e ∈ closeAllTransports sessions,
      e ≠ ShutdownEvent.listenerClosed ∧ e ≠ ShutdownEvent.exited) := by
  refine ⟨rfl, ?_, rfl, closeAllTransports_only_closes sessions⟩
  intro p hp
  exact List.mem_append_left _ (closeAttempt_mem sessions p hp)

/-- Witness for shutdown_drains_sessions on two sessions of which the first
close throws: the second still gets its close attempt and the registry ends
empty. -/
theorem shutdown_drains_sessions_witness :
    ShutdownEvent.closeAttempt "s2" true ∈
      (shutdown [("s1", false), ("s2", true)]).1 ∧
    (shutdown [("s1", false), ("s2", true)]).2 = [] := by
  have h := shutdown_drains_sessions [("s1", false), ("s2", true)]
  exact ⟨h.2.1 ("s2", true) (by decide), h.1⟩

/-- C9: the health endpoint body has the four fields status, mode,
activeSessions and timestamp; its mode is stateless exactly when stateless
mode is configured and stateful otherwise; its activeSessions is the number
of registered sessions; and the readiness endpoint body is ready. -/
theorem health_ready_endpoints (statelessMode : Bool) (registry : Registry)
    (ts : String) :
    (healthResponse statelessMode registry ts).status = "ok" ∧
    (healthResponse statelessMode registry ts).mode =
      (if statelessMode then "stateless" else "stateful") ∧
    ((healthResponse statelessMode registry ts).mode = "stateless" ↔
      statelessMode = true) ∧
    ((healthResponse statelessMode registry ts).mode = "stateful" ↔
      statelessMode = false) ∧
    (healthResponse statelessMode registry ts).activeSessions = registry.length ∧
    (healthResponse statelessMode registry ts).timestamp = ts ∧
    readyResponse.status = "ready" := by
  cases statelessMode <;>
    refine ⟨rfl, rfl, ?_, ?_, rfl, rfl, rfl⟩ <;> simp [healthResponse]

end RedshiftMcp
